import Mathlib

/-!
Verification of the conversation engine of `chatbot-liquid-glass.js`.

The JavaScript widget is shallowly embedded: the mutable `this.state`
object becomes the `ConvState` structure, `sessionStorage` becomes an
explicit `String` value threaded through the functions (`""` plays the
role of an absent entry, exactly as `getSessionId` returns
`sessionStorage.getItem(..) || ''`), and the fallible network call of
`sendRequest` becomes an `Option Response` argument (`none` models a
transport / HTTP / empty-body / JSON-parse failure, for which
`sendRequest` returns `null`).  JavaScript string truthiness is the test
against `""`.
-/

namespace ChatbotLG

/-- An option button as delivered by the backend
(`{id, option_value, next_step?, label?}`); absent string fields are `""`. -/
structure ChatOption where
  id : String
  option_value : String
  next_step : String
  label : String
deriving DecidableEq

/-- A cached message as written by `saveMessageToCache`
(src/chatbot-liquid-glass.js lines 238-251) and amended by
`updateLastCachedMessageRatingFlag`; absent fields are `""` / `[]`. -/
structure CachedMsg where
  text : String
  isBot : Bool
  step : String
  session_id : String
  user_type : String
  concern_category : String
  question : String
  options : List ChatOption
  feedback_options : List ChatOption
  rating_message : String
deriving DecidableEq

/-- The widget's `this.state` (constructor, lines 126-134). -/
structure ConvState where
  currentStep : String
  session_id : String
  user_type : String
  concern_category : String
  question : String
  askAnotherConfirmation : Bool
  locale : String
deriving DecidableEq

/-- A request payload as assembled by the click / submit handlers;
`none` fields are keys that the handler omits from `requestData`. -/
structure Request where
  step : String
  user_type : Option String
  concern_category : Option String
  question : Option String
  session_id : Option String
  locale : Option String
deriving DecidableEq

/-- A backend response as consumed by `handleResponse`; absent string
fields are `""`, and `text_input_enabled` is `some b` exactly when the
backend sent a genuine boolean (`=== true || === false`). -/
structure Response where
  step : String
  session_id : String
  locale : String
  message : String
  answer : String
  text_input_enabled : Option Bool
  options : List ChatOption
  rating_message : String
deriving DecidableEq

/-- JavaScript `a || d` on strings (`""` is the only falsy string). -/
def jsOrDefault (a d : String) : String := if a = "" then d else a

/-- `saveSessionId` (lines 184-189): writes the id to `sessionStorage`
and to `state.session_id`, but only when it is truthy.  The first
component is the `sessionStorage` entry. -/
def saveSessionId (store : String) (s : ConvState) (sid : String) :
    String × ConvState :=
  if sid ≠ "" then (sid, { s with session_id := sid }) else (store, s)

/-- State / storage / input-mode effect of `handleResponse`
(lines 3792-3940).  The early-return branch for
`send_ai_starting_disclaimer` (lines 3794-3829) only updates the locale.
Otherwise the echoed `session_id`, `locale` and `step` are written back
(lines 3831-3853) and the text-input decision of lines 3888-3913 is
computed; the returned `Bool` is `true` iff `enableTextInput()` is
called. -/
def handleResponse (store : String) (s : ConvState) (r : Response) :
    String × ConvState × Bool :=
  if r.step = "send_ai_starting_disclaimer" then
    let s := if r.locale ≠ "" ∧ r.locale.trim ≠ "" then { s with locale := r.locale } else s
    (store, s, false)
  else
    let p :=
      if r.session_id ≠ "" then
        let p := saveSessionId store s r.session_id
        (p.1, { p.2 with session_id := r.session_id })
      else (store, s)
    let store := p.1
    let s := p.2
    let s := if r.locale ≠ "" ∧ r.locale.trim ≠ "" then { s with locale := r.locale } else s
    let s := if r.step ≠ "" then { s with currentStep := r.step } else s
    let enable :=
      if s.currentStep = "send_query_answer" ∨ r.answer ≠ "" then true
      else
        match r.text_input_enabled with
        | some b => b
        | none => decide (s.currentStep = "send_top_questions" ∧
                          s.concern_category = "something_else")
    (store, s, enable)

/-- Runs `handleResponse` over a whole sequence of backend responses,
threading the `sessionStorage` entry and the state. -/
def processResponses (store : String) (s : ConvState) (rs : List Response) :
    String × ConvState :=
  rs.foldl (fun p r => let q := handleResponse p.1 p.2 r; (q.1, q.2.1)) (store, s)

/-- `handleAskAnotherConfirmation` (lines 3694-3728) up to the point where
the request is dispatched: clears the confirmation flag, sets the next
step, and builds the request payload.  The `yes` arm omits
`concern_category` and `question` from the payload; the `no` arm sends
`send_ai_disclaimer`. -/
def handleAskAnotherConfirmationCore (s : ConvState) (choice : String) :
    ConvState × Option Request :=
  let s := { s with askAnotherConfirmation := false }
  if choice = "yes" then
    ({ s with currentStep := "send_concern_categories" },
     some { step := "send_concern_categories",
            user_type := some s.user_type,
            concern_category := none,
            question := none,
            session_id := some (jsOrDefault s.session_id ""),
            locale := some (jsOrDefault s.locale "en") })
  else if choice = "no" then
    ({ s with currentStep := "send_ai_disclaimer" },
     some { step := "send_ai_disclaimer",
            user_type := some (jsOrDefault s.user_type ""),
            concern_category := some (jsOrDefault s.concern_category ""),
            question := some (jsOrDefault s.question ""),
            session_id := some (jsOrDefault s.session_id ""),
            locale := some (jsOrDefault s.locale "en") })
  else (s, none)

/-- `handleOptionClick` (lines 3437-3654) up to the point where the
request is dispatched: the confirmation-flag interception (lines
3439-3450), then the main transition table (lines 3489-3648), which
mutates `this.state` and assembles `requestData`.  A `none` request
models the empty `requestData` object, for which no request is sent
(line 3650). -/
def handleOptionClickCore (s : ConvState) (opt : ChatOption) :
    ConvState × Option Request :=
  if s.askAnotherConfirmation then
    if opt.id = "ask_another_yes" then handleAskAnotherConfirmationCore s "yes"
    else if opt.id = "ask_another_no" then handleAskAnotherConfirmationCore s "no"
    else (s, none)
  else if s.currentStep = "send_user_types" then
    ({ s with user_type := opt.id, currentStep := "send_concern_categories" },
     some { step := "send_concern_categories",
            user_type := some opt.id,
            concern_category := none,
            question := none,
            session_id := some (jsOrDefault s.session_id ""),
            locale := some (jsOrDefault s.locale "en") })
  else if s.currentStep = "send_concern_categories" then
    ({ s with question := "", concern_category := opt.id,
              currentStep := "send_top_questions" },
     some { step := "send_top_questions",
            user_type := some s.user_type,
            concern_category := some opt.id,
            question := none,
            session_id := some (jsOrDefault s.session_id ""),
            locale := some (jsOrDefault s.locale "en") })
  else if s.currentStep = "send_top_questions" then
    if opt.id = "something_else" then
      ({ s with concern_category := "something_else", question := "",
                currentStep := "send_top_questions" },
       some { step := "send_top_questions",
              user_type := some s.user_type,
              concern_category := some "something_else",
              question := none,
              session_id := some (jsOrDefault s.session_id ""),
              locale := some (jsOrDefault s.locale "en") })
    else if opt.next_step ≠ "" then
      ({ s with question := opt.option_value, currentStep := opt.next_step },
       some { step := opt.next_step,
              user_type := some s.user_type,
              concern_category := some s.concern_category,
              question := some opt.option_value,
              session_id := some (jsOrDefault s.session_id ""),
              locale := some (jsOrDefault s.locale "en") })
    else
      ({ s with question := opt.option_value, currentStep := "send_query_answer" },
       some { step := "send_query_answer",
              user_type := some s.user_type,
              concern_category := some s.concern_category,
              question := some opt.option_value,
              session_id := some (jsOrDefault s.session_id ""),
              locale := some (jsOrDefault s.locale "en") })
  else if s.currentStep = "send_query_answer" then
    let nextStep := jsOrDefault opt.next_step "send_query_answer"
    if nextStep = "send_concern_categories" then
      ({ s with currentStep := nextStep },
       some { step := nextStep,
              user_type := some s.user_type,
              concern_category := none,
              question := none,
              session_id := some (jsOrDefault s.session_id ""),
              locale := some (jsOrDefault s.locale "en") })
    else
      ({ s with currentStep := nextStep },
       some { step := nextStep,
              user_type := some s.user_type,
              concern_category := some (jsOrDefault s.concern_category ""),
              question := some (jsOrDefault s.question ""),
              session_id := some (jsOrDefault s.session_id ""),
              locale := some (jsOrDefault s.locale "en") })
  else if s.currentStep = "redirect_to_human_support" then
    let nextStep := jsOrDefault opt.next_step "redirect_to_human_support"
    if nextStep = "send_concern_categories" then
      ({ s with currentStep := nextStep },
       some { step := nextStep,
              user_type := some s.user_type,
              concern_category := none,
              question := none,
              session_id := some (jsOrDefault s.session_id ""),
              locale := some (jsOrDefault s.locale "en") })
    else
      ({ s with currentStep := nextStep },
       some { step := nextStep,
              user_type := some s.user_type,
              concern_category := some (jsOrDefault s.concern_category ""),
              question := some (jsOrDefault s.question ""),
              session_id := some (jsOrDefault s.session_id ""),
              locale := some (jsOrDefault s.locale "en") })
  else (s, none)

/-- Full `handleOptionClick`: pre-request mutations, then, when a request
was assembled and `sendRequest` succeeded (`resp = some r`), the
`handleResponse` effects; when `sendRequest` returned `null`
(`resp = none`) the handler stops after the pre-request mutations. -/
def handleOptionClick (store : String) (s : ConvState) (opt : ChatOption)
    (resp : Option Response) : String × ConvState :=
  let c := handleOptionClickCore s opt
  match c.2, resp with
  | some _, some r => let q := handleResponse store c.1 r; (q.1, q.2.1)
  | _, _ => (store, c.1)

/-- `sendQuestion` (lines 3737-3771) up to dispatch: a blank (trimmed)
input returns early; otherwise the question is recorded in state and the
`send_query_answer` payload is built. -/
def sendQuestionCore (s : ConvState) (q : String) : ConvState × Option Request :=
  if q = "" then (s, none)
  else
    ({ s with question := q },
     some { step := "send_query_answer",
            user_type := some s.user_type,
            concern_category := some s.concern_category,
            question := some q,
            session_id := some (jsOrDefault s.session_id ""),
            locale := some (jsOrDefault s.locale "en") })

/-- Full `sendQuestion`: on success the response is handled, on failure
(`resp = none`) the handler stops after recording the question. -/
def sendQuestion (store : String) (s : ConvState) (q : String)
    (resp : Option Response) : String × ConvState :=
  let c := sendQuestionCore s q
  match c.2, resp with
  | some _, some r => let p := handleResponse store c.1 r; (p.1, p.2.1)
  | _, _ => (store, c.1)

/-- The last `n` entries of a list, i.e. JavaScript `arr.slice(-n)`. -/
def lastN (n : Nat) (l : List α) : List α := l.drop (l.length - n)

/-- The pure log update of `saveMessageToCache` (lines 238-255): push the
new message, then keep only the last 100 entries
(`cached.slice(-100)`). -/
def appendTrim (log : List α) (m : α) : List α :=
  lastN 100 (log ++ [m])

/-- The `localStorage` entry under the cache key, at the granularity the
control flow of `saveMessageToCache` distinguishes: absent
(`getItem` returns `null`), present but not a valid JSON array
(`JSON.parse` throws), or a decoded message array. -/
inductive CacheData where
  | missing : CacheData
  | corrupt : CacheData
  | valid : List CachedMsg → CacheData
deriving DecidableEq

/-- Models `JSON.parse(localStorage.getItem(cacheKey) || '[]')`
(line 234): a missing entry parses as the empty array, a corrupt entry
throws. -/
def readLog : CacheData → Except Unit (List CachedMsg)
  | .missing => .ok []
  | .corrupt => .error ()
  | .valid l => .ok l

/-- The body of the `try` block of `saveMessageToCache` (lines 232-255):
decode, push, trim, store; `quotaFail` models `localStorage.setItem`
throwing (quota exceeded).  The result is the new `localStorage`
entry. -/
def saveMessageBody (d : CacheData) (quotaFail : Bool) (m : CachedMsg) :
    Except Unit CacheData := do
  let l ← readLog d
  if quotaFail then throw () else pure (.valid (appendTrim l m))

/-- `saveMessageToCache` (lines 228-260): no-op without a cache key
(no session id); otherwise the `try` body runs and any error is caught
and logged (`console.warn`), leaving the stored entry unchanged.  The
function is total: no error propagates to the caller. -/
def saveMessageToCacheS (hasKey : Bool) (d : CacheData) (quotaFail : Bool)
    (m : CachedMsg) : CacheData :=
  if hasKey then
    match saveMessageBody d quotaFail m with
    | .ok d' => d'
    | .error _ => d
  else d

/-- The parts of the page context read by `getLocaleFromURL`
(lines 305-359): the URL path, the three recognised query parameters
(`none` models `searchParams.get` returning `null`), the hostname, and
`document.documentElement.lang`. -/
structure PageContext where
  pathname : String
  queryLang : Option String
  queryLocale : Option String
  queryLanguage : Option String
  hostname : String
  htmlLang : String
deriving DecidableEq

/-- An ASCII letter, as matched by `[a-z]` with the `i` regex flag. -/
def isAsciiLetter (c : Char) : Bool :=
  ('a' ≤ c ∧ c ≤ 'z') ∨ ('A' ≤ c ∧ c ≤ 'Z')

/-- JavaScript `a || b` on nullable strings: `null` and `""` both fall
through to `b`. -/
def jsOrOpt (a b : Option String) : Option String :=
  match a with
  | some s => if s ≠ "" then some s else b
  | none => b

/-- JavaScript `s.toLowerCase()` on the ASCII range, character by
character (the locale codes the resolver handles are ASCII). -/
def jsToLower (s : String) : String := String.mk (s.data.map Char.toLower)

/-- JavaScript `s.split('-')[0]`: the portion before the first `'-'`. -/
def jsSplitHead (s : String) : String :=
  String.mk (s.data.takeWhile (fun c => c ≠ '-'))

/-- The fixed locale whitelist (lines 317 and 338). -/
def validLocales : List String :=
  ["en", "fr", "de", "es", "it", "pt", "nl", "pl", "ru", "ja", "zh", "ar", "hi", "ko"]

/-- `pathname.match(/^\/([a-z]{2})(?:\/|$)/i)` (line 313), lowercasing
the captured group as line 315 does. -/
def pathLocaleMatch (pathname : String) : Option String :=
  match pathname.data with
  | '/' :: a :: b :: rest =>
      if isAsciiLetter a ∧ isAsciiLetter b ∧
         (rest.head? = none ∨ rest.head? = some '/') then
        some (String.mk [a.toLower, b.toLower])
      else none
  | _ => none

/-- `hostname.match(/^([a-z]{2})\./i)` (line 335), lowercased. -/
def subdomainMatch (hostname : String) : Option String :=
  match hostname.data with
  | a :: b :: '.' :: _ =>
      if isAsciiLetter a ∧ isAsciiLetter b then
        some (String.mk [a.toLower, b.toLower])
      else none
  | _ => none

/-- Tier 1 of `getLocaleFromURL` (lines 311-321): a two-letter root path
segment, returned only when it is on the whitelist. -/
def localeTierPath (ctx : PageContext) : Option String :=
  match pathLocaleMatch ctx.pathname with
  | some l => if l ∈ validLocales then some l else none
  | none => none

/-- Tier 2 (lines 323-331): the first truthy of the `lang` / `locale` /
`language` parameters; its lowercased portion before the first hyphen is
returned only when it is exactly two characters long. -/
def localeTierQuery (ctx : PageContext) : Option String :=
  match jsOrOpt ctx.queryLang (jsOrOpt ctx.queryLocale ctx.queryLanguage) with
  | some p =>
      if p ≠ "" then
        let l := jsSplitHead (jsToLower p)
        if l.length = 2 then some l else none
      else none
  | none => none

/-- Tier 3 (lines 333-342): a two-letter subdomain, whitelist
validated. -/
def localeTierSubdomain (ctx : PageContext) : Option String :=
  match subdomainMatch ctx.hostname with
  | some l => if l ∈ validLocales then some l else none
  | none => none

/-- Tier 4 (lines 344-351): the `lang` attribute of the document root,
lowercased, portion before the first hyphen, only when exactly two
characters long. -/
def localeTierHtmlLang (ctx : PageContext) : Option String :=
  if ctx.htmlLang ≠ "" then
    let l := jsSplitHead (jsToLower ctx.htmlLang)
    if l.length = 2 then some l else none
  else none

/-- `getLocaleFromURL` (lines 305-359): the four tiers are tried in
order (each tier's `return` is an early exit), defaulting to `"en"`
(line 354). -/
def getLocaleFromURL (ctx : PageContext) : String :=
  match localeTierPath ctx with
  | some l => l
  | none =>
    match localeTierQuery ctx with
    | some l => l
    | none =>
      match localeTierSubdomain ctx with
      | some l => l
      | none =>
        match localeTierHtmlLang ctx with
        | some l => l
        | none => "en"

/-- Modelled from the spec: the claim's reading of tier (b), "a
`lang`/`locale`/`language` query parameter truncated to its leading two
letters" — i.e. the first two characters of the lowercased parameter,
with no further validation.  Used only to compare the claim's wording
against `localeTierQuery` as the source implements it. -/
def specLocaleTierQuery (ctx : PageContext) : Option String :=
  match jsOrOpt ctx.queryLang (jsOrOpt ctx.queryLocale ctx.queryLanguage) with
  | some p => if p ≠ "" then some (String.mk ((jsToLower p).data.take 2)) else none
  | none => none

/-- Modelled from the spec: the whole resolver as the claim words it,
identical to `getLocaleFromURL` except that tier (b) follows the claim's
truncation reading. -/
def specLocaleResolve (ctx : PageContext) : String :=
  match localeTierPath ctx with
  | some l => l
  | none =>
    match specLocaleTierQuery ctx with
    | some l => l
    | none =>
      match localeTierSubdomain ctx with
      | some l => l
      | none =>
        match localeTierHtmlLang ctx with
        | some l => l
        | none => "en"

/-- One iteration of the backwards backfill loop of
`restoreMessagesFromCache` (lines 396-414): each still-unset scalar
state field is filled from the message when the message carries it.  The
five conditions read disjoint fields, so the sequential assignments of
the source are rendered as one simultaneous record update. -/
def backfillMsg (s : ConvState) (m : CachedMsg) : ConvState :=
  { s with
    session_id := if m.session_id ≠ "" ∧ s.session_id = "" then m.session_id else s.session_id,
    user_type := if m.user_type ≠ "" ∧ s.user_type = "" then m.user_type else s.user_type,
    concern_category :=
      if m.concern_category ≠ "" ∧ s.concern_category = "" then m.concern_category
      else s.concern_category,
    question := if m.question ≠ "" ∧ s.question = "" then m.question else s.question,
    currentStep := if m.step ≠ "" ∧ s.currentStep = "" then m.step else s.currentStep }

/-- The backwards state-restoration pass of `restoreMessagesFromCache`
(lines 396-420): the loop runs from the last message down to the first,
then lines 417-420 redundantly re-check the first message's
session id. -/
def backfillState (s : ConvState) (L : List CachedMsg) : ConvState :=
  let s := L.reverse.foldl backfillMsg s
  match L with
  | [] => s
  | m0 :: _ =>
      if m0.session_id ≠ "" ∧ s.session_id = "" then { s with session_id := m0.session_id }
      else s

/-- The final current-step fixup of `restoreMessagesFromCache`
(lines 452-469): the step of the last message wins, unless any message
carries the terminal `send_ai_disclaimer` step, which overrides. -/
def restoreFinalStep (s : ConvState) (L : List CachedMsg) : ConvState :=
  match L.getLast? with
  | none => s
  | some lastMsg =>
    let s := if lastMsg.step ≠ "" then { s with currentStep := lastMsg.step } else s
    if L.any (fun m => m.step = "send_ai_disclaimer") then
      { s with currentStep := "send_ai_disclaimer" }
    else s

/-- The state effect of `restoreMessagesFromCache` (lines 390-472): an
empty cache is a no-op (line 392); otherwise the backwards backfill runs
and, after the UI replay (which always restores `currentStep` to the
backfilled value, lines 437-444), the final step fixup is applied. -/
def restoreState (s : ConvState) (L : List CachedMsg) : ConvState :=
  if L = [] then s else restoreFinalStep (backfillState s L) L

/-- One conditional fill of the backfill loop, on a single field:
`if (value && !field) field = value`. -/
def fillStep (a v : String) : String := if v ≠ "" ∧ a = "" then v else a

/-- Folding `fillStep` over the values a field takes across the
(already reversed) message list: the abstract shape of the backfill loop
on one scalar field. -/
def fillField (x : String) (vs : List String) : String := vs.foldl fillStep x

/-- `stepsWithSelections` as computed by `disableSelectedOptionsInHistory`
(lines 3056-3074). -/
def stepsWithSelections (s : ConvState) : List String :=
  (if s.user_type ≠ "" then ["send_user_types"] else []) ++
  (if s.concern_category ≠ "" then ["send_concern_categories"] else []) ++
  (if s.question ≠ "" then ["send_top_questions"] else []) ++
  (if s.question ≠ "" ∧ s.currentStep ≠ "send_query_answer" then ["send_query_answer"] else [])

/-- The option buttons rendered by one replay of the log (lines
424-446): a `send_rating` message with feedback options gets the rating
UI (whose controls are not option buttons); otherwise each carried
option becomes a button tagged with the message's step — the replay
temporarily sets `currentStep` to `msg.step` while `addOptions`
(line 2994) stamps `data-step`, so a step-less message tags its buttons
with the current (backfilled) step `cs`.  Each button is the pair
`(data-step, data-option-id)`. -/
def renderedButtons (cs : String) (L : List CachedMsg) : List (String × String) :=
  L.flatMap (fun m =>
    if m.step = "send_rating" ∧ m.feedback_options ≠ [] then []
    else if m.options ≠ [] then
      m.options.map (fun o => (jsOrDefault m.step cs, o.id))
    else [])

/-- The buttons `disableSelectedOptionsInHistory` (lines 3077-3090)
disables: a truthy `data-step` that is in `stepsWithSelections` and is
not the current step. -/
def disablePass (s : ConvState) (bs : List (String × String)) : List String :=
  bs.filterMap (fun b =>
    if b.1 ≠ "" ∧ b.1 ∈ stepsWithSelections s ∧ b.1 ≠ s.currentStep then some b.2
    else none)

/-- The option ids left disabled by one run of
`restoreMessagesFromCache` on log `L` from state `s`: the disable pass
(line 450) runs after the replay, with the backfilled state, before the
final step fixup. -/
def disabledIdsOnce (s : ConvState) (L : List CachedMsg) : List String :=
  if L = [] then []
  else disablePass (backfillState s L) (renderedButtons (backfillState s L).currentStep L)

/-- The option ids left disabled after running
`restoreMessagesFromCache` twice in succession on the same log: the
second run replays the log again (appending a second copy of every
button) and runs the disable pass over all buttons with the second
run's backfilled state; buttons disabled by the first run stay
disabled. -/
def disabledIdsTwice (s : ConvState) (L : List CachedMsg) : List String :=
  if L = [] then []
  else
    let mid1 := backfillState s L
    let b1 := renderedButtons mid1.currentStep L
    let d1 := disablePass mid1 b1
    let s1 := restoreFinalStep mid1 L
    let mid2 := backfillState s1 L
    let b2 := renderedButtons mid2.currentStep L
    d1 ++ disablePass mid2 (b1 ++ b2)

attribute [ext] ConvState

/-! ## Helper lemmas -/

theorem handleResponse_session_eq (st : String) (s : ConvState) (r : Response)
    (h : r.session_id = "" ∨ r.session_id = s.session_id) :
    (handleResponse st s r).2.1.session_id = s.session_id := by
  unfold handleResponse saveSessionId
  rcases h with h | h <;> split_ifs <;> simp_all

theorem processResponses_cons (st : String) (s : ConvState) (r : Response)
    (t : List Response) :
    processResponses st s (r :: t) =
      processResponses (handleResponse st s r).1 (handleResponse st s r).2.1 t := rfl

theorem processResponses_session (st : String) (s : ConvState) (rs : List Response)
    (h : ∀ r ∈ rs, r.session_id = "" ∨ r.session_id = s.session_id) :
    (processResponses st s rs).2.session_id = s.session_id := by
  induction rs generalizing st s with
  | nil => rfl
  | cons r t ih =>
      rw [processResponses_cons]
      have hr := handleResponse_session_eq st s r (h r (by simp))
      have := ih (handleResponse st s r).1 (handleResponse st s r).2.1
        (fun x hx => by rw [hr]; exact h x (by simp [hx]))
      rw [this, hr]

theorem handleOptionClickCore_session_locale (s : ConvState) (opt : ChatOption) :
    (handleOptionClickCore s opt).1.session_id = s.session_id ∧
    (handleOptionClickCore s opt).1.locale = s.locale := by
  unfold handleOptionClickCore handleAskAnotherConfirmationCore
  split_ifs <;> first
    | exact ⟨rfl, rfl⟩
    | (dsimp only; constructor <;> (split <;> rfl))

theorem handleOptionClick_failure (st : String) (s : ConvState) (opt : ChatOption) :
    handleOptionClick st s opt none = (st, (handleOptionClickCore s opt).1) := by
  unfold handleOptionClick
  rcases hc : (handleOptionClickCore s opt).2 <;> simp [hc]

theorem sendQuestion_failure (st : String) (s : ConvState) (q : String) :
    sendQuestion st s q none = (st, (sendQuestionCore s q).1) := by
  unfold sendQuestion
  rcases hc : (sendQuestionCore s q).2 <;> simp [hc]

/-! ## Claim C1 -/

/-- C1, counterexample: the claim says a non-empty `state.session_id` is
never changed to a different non-empty value by `handleResponse`, but a
response carrying `session_id = "s2"` overwrites an established `"s1"`
(lines 3831-3835 write the echoed id back unconditionally). -/
theorem C1_session_overwritten_cex :
    (handleResponse "s1"
      { currentStep := "send_query_answer", session_id := "s1", user_type := "customer",
        concern_category := "billing", question := "q", askAnotherConfirmation := false,
        locale := "en" }
      { step := "send_query_answer", session_id := "s2", locale := "", message := "",
        answer := "a", text_input_enabled := none, options := [],
        rating_message := "" }).2.1.session_id = "s2" ∧
    ("s2" : String) ≠ "s1" := by
  constructor
  · rfl
  · decide

/-- C1, amended: `handleResponse` overwrites `session_id` with any
non-empty backend-echoed id, so only responses whose `session_id` is
empty or echoes the current value are guaranteed to preserve it; over
any sequence of such responses an established non-empty session id is
unchanged (and in particular never becomes empty). -/
theorem C1_session_stable_without_new_id (st : String) (s : ConvState)
    (rs : List Response) (hs : s.session_id ≠ "")
    (h : ∀ r ∈ rs, r.session_id = "" ∨ r.session_id = s.session_id) :
    (processResponses st s rs).2.session_id = s.session_id ∧
    (processResponses st s rs).2.session_id ≠ "" := by
  have := processResponses_session st s rs h
  exact ⟨this, by rw [this]; exact hs⟩

/-- C1 witness: concrete instance of the amended theorem. -/
theorem C1_session_stable_without_new_id_witness :
    (processResponses "s1"
      { currentStep := "send_user_types", session_id := "s1", user_type := "",
        concern_category := "", question := "", askAnotherConfirmation := false,
        locale := "en" }
      [{ step := "send_concern_categories", session_id := "", locale := "", message := "m",
         answer := "", text_input_enabled := none, options := [],
         rating_message := "" },
       { step := "send_top_questions", session_id := "s1", locale := "", message := "m",
         answer := "", text_input_enabled := none, options := [],
         rating_message := "" }]).2.session_id = "s1" ∧
    (processResponses "s1"
      { currentStep := "send_user_types", session_id := "s1", user_type := "",
        concern_category := "", question := "", askAnotherConfirmation := false,
        locale := "en" }
      [{ step := "send_concern_categories", session_id := "", locale := "", message := "m",
         answer := "", text_input_enabled := none, options := [],
         rating_message := "" },
       { step := "send_top_questions", session_id := "s1", locale := "", message := "m",
         answer := "", text_input_enabled := none, options := [],
         rating_message := "" }]).2.session_id ≠ "" :=
  C1_session_stable_without_new_id "s1" _ _ (by decide) (by decide)

/-! ## Claim C2 -/

/-- C2, counterexample: the claim says a failed request (`sendRequest`
returns `null`) leaves every `ConversationState` field unchanged, but
`handleOptionClick` mutates `user_type` and `currentStep` *before*
dispatching the request (lines 3491-3500), so after a failure at step
`send_user_types` both fields have already changed. -/
theorem C2_failed_request_mutates_state_cex :
    (handleOptionClick "s1"
      { currentStep := "send_user_types", session_id := "s1", user_type := "",
        concern_category := "", question := "", askAnotherConfirmation := false,
        locale := "en" }
      { id := "customer", option_value := "Customer", next_step := "", label := "" }
      none).2.currentStep = "send_concern_categories" ∧
    (handleOptionClick "s1"
      { currentStep := "send_user_types", session_id := "s1", user_type := "",
        concern_category := "", question := "", askAnotherConfirmation := false,
        locale := "en" }
      { id := "customer", option_value := "Customer", next_step := "", label := "" }
      none).2.user_type = "customer" ∧
    ("send_concern_categories" : String) ≠ "send_user_types" ∧
    ("customer" : String) ≠ "" := by
  refine ⟨rfl, rfl, by decide, by decide⟩

/-- C2, amended: a failed request performs no response-driven mutation —
the `sessionStorage` entry, `state.session_id` and `state.locale` are
unchanged by `handleOptionClick`, and `sendQuestion` changes nothing but
the optimistically recorded `question` — but the pre-dispatch mutations
of the handlers (step advance, recorded selection, confirmation-flag
clearing) do persist. -/
theorem C2_failure_preserves_session_and_locale (st : String) (s : ConvState)
    (opt : ChatOption) (q : String) :
    (handleOptionClick st s opt none).1 = st ∧
    (handleOptionClick st s opt none).2.session_id = s.session_id ∧
    (handleOptionClick st s opt none).2.locale = s.locale ∧
    (sendQuestion st s q none).1 = st ∧
    (sendQuestion st s q none).2.session_id = s.session_id ∧
    (sendQuestion st s q none).2.locale = s.locale ∧
    (sendQuestion st s q none).2.currentStep = s.currentStep ∧
    (sendQuestion st s q none).2.user_type = s.user_type ∧
    (sendQuestion st s q none).2.concern_category = s.concern_category ∧
    (sendQuestion st s q none).2.askAnotherConfirmation = s.askAnotherConfirmation := by
  rw [handleOptionClick_failure, sendQuestion_failure]
  have h := handleOptionClickCore_session_locale s opt
  refine ⟨rfl, h.1, h.2, rfl, ?_, ?_, ?_, ?_, ?_, ?_⟩ <;>
    (unfold sendQuestionCore; split <;> rfl)

/-! ## Claim C3 -/

/-- C3, counterexample: the claim routes the "no" arm of the
confirmation sub-flow to `send_rating`, but
`handleAskAnotherConfirmation` sends `send_ai_disclaimer` and sets
`currentStep` to `send_ai_disclaimer` (lines 3712-3723). -/
theorem C3_no_routes_to_disclaimer_cex :
    (handleOptionClickCore
      { currentStep := "send_query_answer", session_id := "s1", user_type := "customer",
        concern_category := "billing", question := "q", askAnotherConfirmation := true,
        locale := "en" }
      { id := "ask_another_no", option_value := "No", next_step := "",
        label := "" }).1.currentStep = "send_ai_disclaimer" ∧
    ((handleOptionClickCore
      { currentStep := "send_query_answer", session_id := "s1", user_type := "customer",
        concern_category := "billing", question := "q", askAnotherConfirmation := true,
        locale := "en" }
      { id := "ask_another_no", option_value := "No", next_step := "",
        label := "" }).2.map Request.step) = some "send_ai_disclaimer" ∧
    ("send_ai_disclaimer" : String) ≠ "send_rating" := by
  refine ⟨rfl, rfl, by decide⟩

/-- C3, amended: while `askAnotherConfirmation` is set, an option click
is intercepted before the main transition table and routed two ways
only: `ask_another_yes` leads to `send_concern_categories` with
`concern_category` and `question` omitted from the request, and
`ask_another_no` leads to `send_ai_disclaimer` (the rating-enabled
disclaimer request), in both cases clearing the flag; any other option
has no effect, so exactly two successor steps
(`send_concern_categories`, `send_ai_disclaimer`) are reachable from the
confirmation sub-flow. -/
theorem C3_confirmation_two_armed (s : ConvState) (opt : ChatOption)
    (hf : s.askAnotherConfirmation = true) :
    (opt.id = "ask_another_yes" → handleOptionClickCore s opt =
      ({ s with askAnotherConfirmation := false,
                currentStep := "send_concern_categories" },
       some { step := "send_concern_categories", user_type := some s.user_type,
              concern_category := none, question := none,
              session_id := some (jsOrDefault s.session_id ""),
              locale := some (jsOrDefault s.locale "en") })) ∧
    (opt.id = "ask_another_no" → handleOptionClickCore s opt =
      ({ s with askAnotherConfirmation := false,
                currentStep := "send_ai_disclaimer" },
       some { step := "send_ai_disclaimer",
              user_type := some (jsOrDefault s.user_type ""),
              concern_category := some (jsOrDefault s.concern_category ""),
              question := some (jsOrDefault s.question ""),
              session_id := some (jsOrDefault s.session_id ""),
              locale := some (jsOrDefault s.locale "en") })) ∧
    (opt.id ≠ "ask_another_yes" → opt.id ≠ "ask_another_no" →
      handleOptionClickCore s opt = (s, none)) ∧
    ((handleOptionClickCore s opt).1.currentStep = s.currentStep ∨
     (handleOptionClickCore s opt).1.currentStep = "send_concern_categories" ∨
     (handleOptionClickCore s opt).1.currentStep = "send_ai_disclaimer") := by
  unfold handleOptionClickCore handleAskAnotherConfirmationCore
  rw [hf]
  refine ⟨fun hy => ?_, fun hn => ?_, fun hy hn => ?_, ?_⟩
  · simp [hy]
  · by_cases hy : opt.id = "ask_another_yes"
    · rw [hy] at hn; exact absurd hn (by decide)
    · simp [hy, hn]
  · simp [hy, hn]
  · by_cases hy : opt.id = "ask_another_yes"
    · simp [hy]
    · by_cases hn : opt.id = "ask_another_no" <;> simp [hy, hn]

/-- C3 witness: concrete instance of the amended theorem. -/
theorem C3_confirmation_two_armed_witness :
    handleOptionClickCore
      { currentStep := "send_query_answer", session_id := "s1", user_type := "ut",
        concern_category := "cc", question := "qq", askAnotherConfirmation := true,
        locale := "en" }
      { id := "ask_another_yes", option_value := "Yes", next_step := "", label := "" } =
    ({ currentStep := "send_concern_categories", session_id := "s1", user_type := "ut",
       concern_category := "cc", question := "qq", askAnotherConfirmation := false,
       locale := "en" },
     some { step := "send_concern_categories", user_type := some "ut",
            concern_category := none, question := none, session_id := some "s1",
            locale := some "en" }) := by
  have h := C3_confirmation_two_armed
    { currentStep := "send_query_answer", session_id := "s1", user_type := "ut",
      concern_category := "cc", question := "qq", askAnotherConfirmation := true,
      locale := "en" }
    { id := "ask_another_yes", option_value := "Yes", next_step := "", label := "" }
    (by decide)
  rw [h.1 (by decide)]
  decide

/-! ## Claim C6 -/

/-- C6, counterexample: in the Scenario-B state (at `send_top_questions`
with `concern_category` unset) a click on the `billing` option puts the
*accumulated* category — the empty string, not `"billing"` — into the
outgoing request (line 3547 sends `this.state.concern_category`). -/
theorem C6_request_category_not_billing_cex :
    ((handleOptionClickCore
      { currentStep := "send_top_questions", session_id := "s1", user_type := "customer",
        concern_category := "", question := "", askAnotherConfirmation := false,
        locale := "en" }
      { id := "billing", option_value := "Billing", next_step := "",
        label := "" }).2.map Request.concern_category) = some (some "") ∧
    (some (some "") : Option (Option String)) ≠ some (some "billing") := by
  refine ⟨rfl, by decide⟩

/-- C6, amended: in the Scenario-B state, clicking
`{id:"billing", option_value:"Billing"}` with no `next_step` produces
the request `{step:"send_query_answer", concern_category: the
accumulated category (empty here), question:"Billing", ...}` and sets
`currentStep` to `send_query_answer`. -/
theorem C6_top_question_click (s : ConvState) (opt : ChatOption)
    (hf : s.askAnotherConfirmation = false)
    (hstep : s.currentStep = "send_top_questions")
    (hcc : s.concern_category = "")
    (hid : opt.id = "billing") (hv : opt.option_value = "Billing")
    (hns : opt.next_step = "") :
    handleOptionClickCore s opt =
      ({ s with question := "Billing", currentStep := "send_query_answer" },
       some { step := "send_query_answer", user_type := some s.user_type,
              concern_category := some "", question := some "Billing",
              session_id := some (jsOrDefault s.session_id ""),
              locale := some (jsOrDefault s.locale "en") }) := by
  unfold handleOptionClickCore
  rw [hf, hstep, hid, hv, hns, hcc]
  simp

/-- C6 witness: concrete instance of the amended theorem. -/
theorem C6_top_question_click_witness :
    handleOptionClickCore
      { currentStep := "send_top_questions", session_id := "s1", user_type := "customer",
        concern_category := "", question := "", askAnotherConfirmation := false,
        locale := "en" }
      { id := "billing", option_value := "Billing", next_step := "", label := "" } =
      ({ currentStep := "send_query_answer", session_id := "s1", user_type := "customer",
         concern_category := "", question := "Billing", askAnotherConfirmation := false,
         locale := "en" },
       some { step := "send_query_answer", user_type := some "customer",
              concern_category := some "", question := some "Billing",
              session_id := some "s1", locale := some "en" }) := by
  have := C6_top_question_click
    { currentStep := "send_top_questions", session_id := "s1", user_type := "customer",
      concern_category := "", question := "", askAnotherConfirmation := false,
      locale := "en" }
    { id := "billing", option_value := "Billing", next_step := "", label := "" }
    (by decide) (by decide) (by decide) (by decide) (by decide) (by decide)
  rw [this]
  decide

/-! ## Claim C10 -/

/-- C10: `saveSessionId` with a falsy id is a no-op on both the
`sessionStorage` entry and `state.session_id`, and a backend response
whose `session_id` is empty (or absent, which the embedding renders as
the empty string) can never clear or replace an established session id
in `handleResponse`. -/
theorem C10_falsy_session_noop (st : String) (s : ConvState) (sid : String)
    (r : Response) :
    (sid = "" → saveSessionId st s sid = (st, s)) ∧
    (r.session_id = "" →
      (handleResponse st s r).1 = st ∧
      (handleResponse st s r).2.1.session_id = s.session_id) := by
  constructor
  · intro h; simp [saveSessionId, h]
  · intro h
    unfold handleResponse
    split_ifs <;> simp_all

/-- C10 witness: concrete instance with an established session id and a
response carrying an empty `session_id`. -/
theorem C10_falsy_session_noop_witness :
    saveSessionId "s1"
      { currentStep := "send_top_questions", session_id := "s1", user_type := "customer",
        concern_category := "", question := "", askAnotherConfirmation := false,
        locale := "en" } "" =
      ("s1",
       { currentStep := "send_top_questions", session_id := "s1", user_type := "customer",
         concern_category := "", question := "", askAnotherConfirmation := false,
         locale := "en" }) ∧
    (handleResponse "s1"
      { currentStep := "send_top_questions", session_id := "s1", user_type := "customer",
        concern_category := "", question := "", askAnotherConfirmation := false,
        locale := "en" }
      { step := "send_query_answer", session_id := "", locale := "", message := "",
        answer := "a", text_input_enabled := none, options := [],
        rating_message := "" }).2.1.session_id = "s1" := by
  have h := C10_falsy_session_noop "s1"
    { currentStep := "send_top_questions", session_id := "s1", user_type := "customer",
      concern_category := "", question := "", askAnotherConfirmation := false,
      locale := "en" } ""
    { step := "send_query_answer", session_id := "", locale := "", message := "",
      answer := "a", text_input_enabled := none, options := [], rating_message := "" }
  exact ⟨h.1 (by decide), (h.2 (by decide)).2⟩

/-! ## Claim C7 -/

/-- C7, counterexample: the claim's fallback enables free text exactly
when the accumulated category is `something_else`, but the code's
fallback (lines 3910-3911) additionally requires the current step to be
`send_top_questions`: with category `something_else` at step
`send_user_types` the input stays disabled. -/
theorem C7_fallback_needs_top_questions_cex :
    (handleResponse "s1"
      { currentStep := "send_user_types", session_id := "s1", user_type := "",
        concern_category := "something_else", question := "",
        askAnotherConfirmation := false, locale := "en" }
      { step := "send_user_types", session_id := "", locale := "", message := "m",
        answer := "", text_input_enabled := none, options := [],
        rating_message := "" }).2.2 = false ∧
    ({ currentStep := "send_user_types", session_id := "s1", user_type := "",
       concern_category := "something_else", question := "",
       askAnotherConfirmation := false, locale := "en" } :
       ConvState).concern_category = "something_else" ∧
    ({ step := "send_user_types", session_id := "", locale := "", message := "m",
       answer := "", text_input_enabled := none, options := [],
       rating_message := "" } : Response).answer = "" ∧
    ({ step := "send_user_types", session_id := "", locale := "", message := "m",
       answer := "", text_input_enabled := none, options := [],
       rating_message := "" } : Response).text_input_enabled = none ∧
    (handleResponse "s1"
      { currentStep := "send_user_types", session_id := "s1", user_type := "",
        concern_category := "something_else", question := "",
        askAnotherConfirmation := false, locale := "en" }
      { step := "send_user_types", session_id := "", locale := "", message := "m",
        answer := "", text_input_enabled := none, options := [],
        rating_message := "" }).2.1.currentStep ≠ "send_query_answer" := by
  refine ⟨rfl, rfl, rfl, rfl, by decide⟩

/-- C7, amended: for every non-starting-disclaimer response, free text
is forced on whenever the resulting current step is `send_query_answer`
or the response carries an answer payload; otherwise an explicit
backend boolean decides; otherwise free text is enabled exactly when
the resulting step is `send_top_questions` *and* the accumulated
category is the `something_else` sentinel. -/
theorem C7_input_mode_decision (st : String) (s : ConvState) (r : Response)
    (hd : r.step ≠ "send_ai_starting_disclaimer") :
    ((handleResponse st s r).2.1.currentStep = "send_query_answer" ∨ r.answer ≠ "" →
      (handleResponse st s r).2.2 = true) ∧
    ((handleResponse st s r).2.1.currentStep ≠ "send_query_answer" → r.answer = "" →
      ∀ b, r.text_input_enabled = some b → (handleResponse st s r).2.2 = b) ∧
    ((handleResponse st s r).2.1.currentStep ≠ "send_query_answer" → r.answer = "" →
      r.text_input_enabled = none →
      ((handleResponse st s r).2.2 = true ↔
        ((handleResponse st s r).2.1.currentStep = "send_top_questions" ∧
         (handleResponse st s r).2.1.concern_category = "something_else"))) := by
  unfold handleResponse
  rw [if_neg hd]
  dsimp only
  refine ⟨fun h => ?_, fun h1 h2 b hb => ?_, fun h1 h2 hn => ?_⟩
  · rw [if_pos h]
  · rw [if_neg (not_or.mpr ⟨h1, fun hne => hne h2⟩), hb]
  · rw [if_neg (not_or.mpr ⟨h1, fun hne => hne h2⟩), hn]
    simp

/-- C7 witness: concrete instance of the amended theorem (explicit
backend boolean honoured). -/
theorem C7_input_mode_decision_witness :
    (handleResponse "s1"
      { currentStep := "send_user_types", session_id := "s1", user_type := "",
        concern_category := "", question := "", askAnotherConfirmation := false,
        locale := "en" }
      { step := "send_concern_categories", session_id := "", locale := "", message := "m",
        answer := "", text_input_enabled := some true, options := [],
        rating_message := "" }).2.2 = true := by
  have h := C7_input_mode_decision "s1"
    { currentStep := "send_user_types", session_id := "s1", user_type := "",
      concern_category := "", question := "", askAnotherConfirmation := false,
      locale := "en" }
    { step := "send_concern_categories", session_id := "", locale := "", message := "m",
      answer := "", text_input_enabled := some true, options := [], rating_message := "" }
    (by decide)
  exact h.2.1 (by decide) (by decide) true (by decide)

/-! ## Claim C8 -/

/-- C8, counterexample: the claim says corrupt stored data is treated as
an empty array and the new message is still appended, but a corrupt
entry makes `JSON.parse` throw, the `catch` (lines 256-259) only logs,
and the append is skipped — the stored entry is left as it was. -/
theorem C8_corrupt_skips_append_cex :
    saveMessageToCacheS true CacheData.corrupt false
      { text := "hello", isBot := true, step := "send_user_types", session_id := "s1",
        user_type := "", concern_category := "", question := "", options := [],
        feedback_options := [], rating_message := "" } = CacheData.corrupt ∧
    CacheData.corrupt ≠ CacheData.valid (appendTrim []
      { text := "hello", isBot := true, step := "send_user_types", session_id := "s1",
        user_type := "", concern_category := "", question := "", options := [],
        feedback_options := [], rating_message := "" }) := by
  refine ⟨rfl, by decide⟩

/-- C8, amended: `saveMessageToCache` is total (no error reaches the
caller): a missing entry is decoded as the empty array and the message
is appended; a corrupt entry makes the decode throw, the error is
caught and logged and the append is skipped; a storage/serialization
failure is likewise caught, leaving the entry unchanged; and without a
cache key (no session id) the call is a no-op. -/
theorem C8_cache_error_handling (l : List CachedMsg) (m : CachedMsg) (qf : Bool)
    (d : CacheData) :
    saveMessageToCacheS true CacheData.missing false m = CacheData.valid [m] ∧
    saveMessageToCacheS true CacheData.corrupt qf m = CacheData.corrupt ∧
    saveMessageToCacheS true (CacheData.valid l) false m =
      CacheData.valid (appendTrim l m) ∧
    saveMessageToCacheS true (CacheData.valid l) true m = CacheData.valid l ∧
    saveMessageToCacheS true CacheData.missing true m = CacheData.missing ∧
    saveMessageToCacheS false d qf m = d := by
  exact ⟨rfl, rfl, rfl, rfl, rfl, rfl⟩

/-! ## Claim C4 -/

theorem lastN_of_le {l : List α} {n : Nat} (h : l.length ≤ n) : lastN n l = l := by
  simp [lastN, Nat.sub_eq_zero_of_le h]

theorem lastN_length (n : Nat) (l : List α) :
    (lastN n l).length = l.length - (l.length - n) := by
  simp [lastN]

theorem lastN_append_single (n : Nat) (hn : 0 < n) (xs : List α) (m : α) :
    lastN n (lastN n xs ++ [m]) = lastN n (xs ++ [m]) := by
  by_cases h : xs.length ≤ n
  · rw [lastN_of_le h]
  · push_neg at h
    have hy : (lastN n xs).length = n := by
      rw [lastN_length]; omega
    have h1 : (lastN n xs ++ [m]).length - n = 1 := by
      rw [List.length_append, hy, List.length_singleton]; omega
    have h2 : (xs ++ [m]).length - n = xs.length - n + 1 := by
      rw [List.length_append, List.length_singleton]; omega
    show (lastN n xs ++ [m]).drop ((lastN n xs ++ [m]).length - n) =
      (xs ++ [m]).drop ((xs ++ [m]).length - n)
    rw [h1, h2,
      List.drop_append_of_le_length (by omega : 1 ≤ (lastN n xs).length),
      List.drop_append_of_le_length (by omega : xs.length - n + 1 ≤ xs.length)]
    show (xs.drop (xs.length - n)).drop 1 ++ [m] = xs.drop (xs.length - n + 1) ++ [m]
    rw [List.drop_drop]

theorem foldl_appendTrim (msgs : List α) : ∀ xs : List α,
    msgs.foldl appendTrim (lastN 100 xs) = lastN 100 (xs ++ msgs) := by
  induction msgs with
  | nil => intro xs; simp
  | cons m t ih =>
      intro xs
      rw [List.foldl_cons,
        show appendTrim (lastN 100 xs) m = lastN 100 (xs ++ [m]) from
          lastN_append_single 100 (by omega) xs m,
        ih (xs ++ [m]), List.append_assoc]
      rfl

/-- C4: starting from a persisted log of at most 100 messages, any
sequence of at least 100 further `saveMessageToCache` appends keeps the
log at no more than 100 entries at every intermediate point, and the
final log is exactly the last 100 appended messages in insertion order
(oldest dropped first). -/
theorem C4_fifo_window (init msgs : List CachedMsg)
    (hinit : init.length ≤ 100) (hmsgs : 100 ≤ msgs.length) :
    msgs.foldl appendTrim init = msgs.drop (msgs.length - 100) ∧
    ∀ n, ((msgs.take n).foldl appendTrim init).length ≤ 100 := by
  have hrw : ∀ t : List CachedMsg, t.foldl appendTrim init = lastN 100 (init ++ t) := by
    intro t
    have hfold := foldl_appendTrim t init
    rwa [lastN_of_le hinit] at hfold
  constructor
  · rw [hrw msgs]
    unfold lastN
    rw [List.length_append,
      show init.length + msgs.length - 100 = init.length + (msgs.length - 100) by omega,
      List.drop_append]
  · intro n
    rw [hrw (msgs.take n), lastN_length]
    omega

set_option maxRecDepth 4000 in
/-- C4 witness: concrete instance with an empty starting log and 100
appended messages. -/
theorem C4_fifo_window_witness :
    (List.replicate 100
        ({ text := "hi", isBot := true, step := "send_user_types", session_id := "s1",
           user_type := "", concern_category := "", question := "", options := [],
           feedback_options := [], rating_message := "" } : CachedMsg)).foldl
      appendTrim [] =
      (List.replicate 100
        ({ text := "hi", isBot := true, step := "send_user_types", session_id := "s1",
           user_type := "", concern_category := "", question := "", options := [],
           feedback_options := [], rating_message := "" } : CachedMsg)).drop
        ((List.replicate 100
          ({ text := "hi", isBot := true, step := "send_user_types", session_id := "s1",
             user_type := "", concern_category := "", question := "", options := [],
             feedback_options := [], rating_message := "" } : CachedMsg)).length - 100) :=
  (C4_fifo_window [] _ (by simp) (by simp)).1

/-! ## Claim C5 -/

/-- C5, counterexample: the claim reads tier (b) as "query parameter
truncated to its leading two letters", but the code takes the portion
before the first hyphen and accepts it only when it is exactly two
characters (lines 327-330).  With `?lang=eng` on host
`fr.example.com`, the claim's reading resolves `"en"` at tier (b) while
the code falls through to the subdomain tier and resolves `"fr"`. -/
theorem C5_query_truncation_cex :
    getLocaleFromURL
      { pathname := "/", queryLang := some "eng", queryLocale := none,
        queryLanguage := none, hostname := "fr.example.com", htmlLang := "" } = "fr" ∧
    specLocaleResolve
      { pathname := "/", queryLang := some "eng", queryLocale := none,
        queryLanguage := none, hostname := "fr.example.com", htmlLang := "" } = "en" ∧
    ("fr" : String) ≠ "en" := by
  refine ⟨by decide, by decide, by decide⟩

/-- C5, amended: `getLocaleFromURL` tries, in this order: (a) a
two-letter whitelist-validated root path segment; (b) a
`lang`/`locale`/`language` query parameter, accepted only when the
lowercased portion before the first hyphen is exactly two characters;
(c) a two-letter whitelist-validated subdomain; (d) the document's
declared `lang` attribute under the same two-character rule; (e) the
default `"en"` — an earlier tier's hit always beats every later tier,
and a tier that fails its validation falls through to the next. -/
theorem C5_locale_precedence (ctx : PageContext) :
    (∀ l, localeTierPath ctx = some l → getLocaleFromURL ctx = l) ∧
    (localeTierPath ctx = none →
      ∀ l, localeTierQuery ctx = some l → getLocaleFromURL ctx = l) ∧
    (localeTierPath ctx = none → localeTierQuery ctx = none →
      ∀ l, localeTierSubdomain ctx = some l → getLocaleFromURL ctx = l) ∧
    (localeTierPath ctx = none → localeTierQuery ctx = none →
      localeTierSubdomain ctx = none →
      ∀ l, localeTierHtmlLang ctx = some l → getLocaleFromURL ctx = l) ∧
    (localeTierPath ctx = none → localeTierQuery ctx = none →
      localeTierSubdomain ctx = none → localeTierHtmlLang ctx = none →
      getLocaleFromURL ctx = "en") := by
  unfold getLocaleFromURL
  refine ⟨fun l h => ?_, fun h1 l h => ?_, fun h1 h2 l h => ?_,
    fun h1 h2 h3 l h => ?_, fun h1 h2 h3 h4 => ?_⟩ <;>
    simp_all

/-- C5 witness: a root path segment `/fr/...` wins at tier (a). -/
theorem C5_locale_precedence_witness :
    getLocaleFromURL
      { pathname := "/fr/page", queryLang := some "de", queryLocale := none,
        queryLanguage := none, hostname := "es.example.com", htmlLang := "it" } = "fr" :=
  (C5_locale_precedence
    { pathname := "/fr/page", queryLang := some "de", queryLocale := none,
      queryLanguage := none, hostname := "es.example.com", htmlLang := "it" }).1
    "fr" (by decide)

/-! ## Claim C9 -/

theorem fillField_of_ne {x : String} (vs : List String) (h : x ≠ "") :
    fillField x vs = x := by
  induction vs generalizing x with
  | nil => rfl
  | cons v t ih =>
      show fillField (fillStep x v) t = x
      rw [show fillStep x v = x from if_neg (fun hc => h hc.2)]
      exact ih h

theorem fillField_empty {x : String} {vs : List String}
    (h : fillField x vs = "") : x = "" := by
  by_contra hx
  rw [fillField_of_ne vs hx] at h
  exact hx h

theorem fillField_all_empty {x : String} {vs : List String}
    (h : fillField x vs = "") : ∀ v ∈ vs, v = "" := by
  induction vs generalizing x with
  | nil => simp
  | cons v t ih =>
      intro w hw
      have ht : fillField (fillStep x v) t = "" := h
      have hstep : fillStep x v = "" := fillField_empty ht
      have hv : v = "" := by
        by_contra hv
        have hx : x = "" := fillField_empty h
        rw [show fillStep x v = v from if_pos ⟨hv, hx⟩] at hstep
        exact hv hstep
      rcases List.mem_cons.mp hw with rfl | hw
      · exact hv
      · exact ih ht w hw

theorem fillField_idem {x : String} {vs : List String} :
    fillField (fillField x vs) vs = fillField x vs := by
  induction vs generalizing x with
  | nil => rfl
  | cons v t ih =>
      show fillField (fillStep (fillField (fillStep x v) t) v) t =
        fillField (fillStep x v) t
      by_cases hy : fillField (fillStep x v) t = ""
      · have hx' : fillStep x v = "" := fillField_empty hy
        have hv : v = "" := by
          by_contra hv
          unfold fillStep at hx'
          split_ifs at hx' with hc
          · exact hv hx'
          · exact hc ⟨hv, hx'⟩
        rw [show fillStep (fillField (fillStep x v) t) v = fillField (fillStep x v) t from
          if_neg (fun hc => hc.1 hv)]
        exact ih
      · rw [show fillStep (fillField (fillStep x v) t) v = fillField (fillStep x v) t
          from if_neg (fun hc => hy hc.2)]
        exact ih

theorem foldl_backfill_session (ms : List CachedMsg) (s : ConvState) :
    (ms.foldl backfillMsg s).session_id =
      fillField s.session_id (ms.map CachedMsg.session_id) := by
  induction ms generalizing s with
  | nil => rfl
  | cons m t ih => exact ih (backfillMsg s m)

theorem foldl_backfill_user_type (ms : List CachedMsg) (s : ConvState) :
    (ms.foldl backfillMsg s).user_type =
      fillField s.user_type (ms.map CachedMsg.user_type) := by
  induction ms generalizing s with
  | nil => rfl
  | cons m t ih => exact ih (backfillMsg s m)

theorem foldl_backfill_category (ms : List CachedMsg) (s : ConvState) :
    (ms.foldl backfillMsg s).concern_category =
      fillField s.concern_category (ms.map CachedMsg.concern_category) := by
  induction ms generalizing s with
  | nil => rfl
  | cons m t ih => exact ih (backfillMsg s m)

theorem foldl_backfill_question (ms : List CachedMsg) (s : ConvState) :
    (ms.foldl backfillMsg s).question =
      fillField s.question (ms.map CachedMsg.question) := by
  induction ms generalizing s with
  | nil => rfl
  | cons m t ih => exact ih (backfillMsg s m)

theorem foldl_backfill_step (ms : List CachedMsg) (s : ConvState) :
    (ms.foldl backfillMsg s).currentStep =
      fillField s.currentStep (ms.map CachedMsg.step) := by
  induction ms generalizing s with
  | nil => rfl
  | cons m t ih => exact ih (backfillMsg s m)

theorem foldl_backfill_locale (ms : List CachedMsg) (s : ConvState) :
    (ms.foldl backfillMsg s).locale = s.locale := by
  induction ms generalizing s with
  | nil => rfl
  | cons m t ih => exact ih (backfillMsg s m)

theorem foldl_backfill_flag (ms : List CachedMsg) (s : ConvState) :
    (ms.foldl backfillMsg s).askAnotherConfirmation = s.askAnotherConfirmation := by
  induction ms generalizing s with
  | nil => rfl
  | cons m t ih => exact ih (backfillMsg s m)

/-- The redundant first-message session re-check of lines 417-420 never
fires: the backwards loop has already filled `session_id` from any
message that carries one, so `backfillState` is just the loop. -/
theorem backfillState_eq (s : ConvState) (L : List CachedMsg) :
    backfillState s L = L.reverse.foldl backfillMsg s := by
  unfold backfillState
  cases L with
  | nil => rfl
  | cons m0 t =>
      dsimp only
      split_ifs with hc
      · exfalso
        have h2 := hc.2
        rw [foldl_backfill_session] at h2
        exact hc.1 (fillField_all_empty h2 m0.session_id (by simp))
      · rfl

theorem backfillState_idem (s : ConvState) (L : List CachedMsg) :
    backfillState (backfillState s L) L = backfillState s L := by
  rw [backfillState_eq, backfillState_eq]
  refine ConvState.ext ?_ ?_ ?_ ?_ ?_ ?_ ?_
  · rw [foldl_backfill_step, foldl_backfill_step, fillField_idem]
  · rw [foldl_backfill_session, foldl_backfill_session, fillField_idem]
  · rw [foldl_backfill_user_type, foldl_backfill_user_type, fillField_idem]
  · rw [foldl_backfill_category, foldl_backfill_category, fillField_idem]
  · rw [foldl_backfill_question, foldl_backfill_question, fillField_idem]
  · rw [foldl_backfill_flag, foldl_backfill_flag]
  · rw [foldl_backfill_locale, foldl_backfill_locale]

theorem restoreFinalStep_others (s : ConvState) (L : List CachedMsg) :
    (restoreFinalStep s L).session_id = s.session_id ∧
    (restoreFinalStep s L).user_type = s.user_type ∧
    (restoreFinalStep s L).concern_category = s.concern_category ∧
    (restoreFinalStep s L).question = s.question ∧
    (restoreFinalStep s L).askAnotherConfirmation = s.askAnotherConfirmation ∧
    (restoreFinalStep s L).locale = s.locale := by
  unfold restoreFinalStep
  cases L.getLast? <;> dsimp only <;> (try split_ifs) <;>
    exact ⟨rfl, rfl, rfl, rfl, rfl, rfl⟩

theorem restoreFinalStep_cs_empty {s : ConvState} {L : List CachedMsg}
    (h : (restoreFinalStep s L).currentStep = "") : s.currentStep = "" := by
  unfold restoreFinalStep at h
  cases hl : L.getLast? <;> rw [hl] at h <;> dsimp only at h
  · exact h
  · split_ifs at h <;> simp_all

theorem restoreFinalStep_cs (s : ConvState) (L : List CachedMsg) :
    (restoreFinalStep s L).currentStep =
      match L.getLast? with
      | none => s.currentStep
      | some last =>
          if L.any (fun m => m.step = "send_ai_disclaimer") then "send_ai_disclaimer"
          else if last.step ≠ "" then last.step else s.currentStep := by
  unfold restoreFinalStep
  cases L.getLast? with
  | none => rfl
  | some last =>
      dsimp only
      split_ifs <;> rfl

theorem restoreFinalStep_idem (s : ConvState) (L : List CachedMsg) :
    restoreFinalStep (restoreFinalStep s L) L = restoreFinalStep s L := by
  have hp := restoreFinalStep_others (restoreFinalStep s L) L
  refine ConvState.ext ?_ ?_ ?_ ?_ ?_ ?_ ?_
  · rw [restoreFinalStep_cs (restoreFinalStep s L) L, restoreFinalStep_cs s L]
    cases hl : L.getLast?
    · rfl
    · dsimp only
      split_ifs <;> rfl
  · exact hp.1
  · exact hp.2.1
  · exact hp.2.2.1
  · exact hp.2.2.2.1
  · exact hp.2.2.2.2.1
  · exact hp.2.2.2.2.2

/-- A second backfill pass after the final-step fixup changes nothing:
every field is either already filled or has no message to fill it
from. -/
theorem backfill_after_restoreFinal (s : ConvState) (L : List CachedMsg) :
    backfillState (restoreFinalStep (backfillState s L) L) L =
      restoreFinalStep (backfillState s L) L := by
  have hp := restoreFinalStep_others (backfillState s L) L
  rw [backfillState_eq]
  refine ConvState.ext ?_ ?_ ?_ ?_ ?_ ?_ ?_
  · rw [foldl_backfill_step]
    by_cases hcs : (restoreFinalStep (backfillState s L) L).currentStep = ""
    · have hmid : fillField s.currentStep (L.reverse.map CachedMsg.step) = "" := by
        rw [← foldl_backfill_step, ← backfillState_eq]
        exact restoreFinalStep_cs_empty hcs
      rw [hcs, ← hmid, fillField_idem, hmid]
    · rw [fillField_of_ne _ hcs]
  · rw [foldl_backfill_session, hp.1, backfillState_eq, foldl_backfill_session]
    exact fillField_idem
  · rw [foldl_backfill_user_type, hp.2.1, backfillState_eq, foldl_backfill_user_type]
    exact fillField_idem
  · rw [foldl_backfill_category, hp.2.2.1, backfillState_eq, foldl_backfill_category]
    exact fillField_idem
  · rw [foldl_backfill_question, hp.2.2.2.1, backfillState_eq, foldl_backfill_question]
    exact fillField_idem
  · rw [foldl_backfill_flag]
  · rw [foldl_backfill_locale]

theorem disablePass_append (s : ConvState) (b1 b2 : List (String × String)) :
    disablePass s (b1 ++ b2) = disablePass s b1 ++ disablePass s b2 := by
  unfold disablePass
  rw [List.filterMap_append]

/-- C9, counterexample: restoring twice is not idempotent for the
disabled option ids.  With an empty initial state and a log whose
terminal-disclaimer message precedes a `send_user_types` message
carrying an option, the first run's disable pass sees current step
`send_user_types` (backfilled) and disables nothing, but the final step
fixup then overrides to `send_ai_disclaimer`, so the second run's
disable pass disables the `u1` button. -/
theorem C9_restore_not_idempotent_cex :
    ("u1" ∈ disabledIdsTwice
      { currentStep := "", session_id := "", user_type := "", concern_category := "",
        question := "", askAnotherConfirmation := false, locale := "" }
      [{ text := "bye", isBot := true, step := "send_ai_disclaimer", session_id := "",
         user_type := "", concern_category := "", question := "", options := [],
         feedback_options := [], rating_message := "" },
       { text := "hi", isBot := true, step := "send_user_types", session_id := "",
         user_type := "customer", concern_category := "", question := "",
         options := [{ id := "u1", option_value := "U1", next_step := "", label := "" }],
         feedback_options := [], rating_message := "" }]) ∧
    ("u1" ∉ disabledIdsOnce
      { currentStep := "", session_id := "", user_type := "", concern_category := "",
        question := "", askAnotherConfirmation := false, locale := "" }
      [{ text := "bye", isBot := true, step := "send_ai_disclaimer", session_id := "",
         user_type := "", concern_category := "", question := "", options := [],
         feedback_options := [], rating_message := "" },
       { text := "hi", isBot := true, step := "send_user_types", session_id := "",
         user_type := "customer", concern_category := "", question := "",
         options := [{ id := "u1", option_value := "U1", next_step := "", label := "" }],
         feedback_options := [], rating_message := "" }]) := by
  refine ⟨by decide, by decide⟩

/-- C9, amended: running the restore twice on the same log always yields
the same final `ConversationState` as running it once; the set of
disabled option ids is also the same whenever the final current step
(after the last-message / disclaimer override) coincides with the
backfilled current step used by the disable pass — the counterexample
shows the ids can differ when the disclaimer override changes the
step. -/
theorem C9_restore_idempotent (s : ConvState) (L : List CachedMsg) :
    restoreState (restoreState s L) L = restoreState s L ∧
    ((restoreState s L).currentStep = (backfillState s L).currentStep →
      ∀ x, x ∈ disabledIdsTwice s L ↔ x ∈ disabledIdsOnce s L) := by
  constructor
  · by_cases hL : L = []
    · simp [restoreState, hL]
    · unfold restoreState
      rw [if_neg hL, if_neg hL, backfill_after_restoreFinal, restoreFinalStep_idem]
  · intro h x
    by_cases hL : L = []
    · simp [disabledIdsTwice, disabledIdsOnce, hL]
    · rw [restoreState, if_neg hL] at h
      have hs1 : restoreFinalStep (backfillState s L) L = backfillState s L := by
        have hp := restoreFinalStep_others (backfillState s L) L
        refine ConvState.ext ?_ ?_ ?_ ?_ ?_ ?_ ?_
        · exact h
        · exact hp.1
        · exact hp.2.1
        · exact hp.2.2.1
        · exact hp.2.2.2.1
        · exact hp.2.2.2.2.1
        · exact hp.2.2.2.2.2
      unfold disabledIdsTwice disabledIdsOnce
      rw [if_neg hL, if_neg hL]
      dsimp only
      rw [hs1, backfillState_idem, disablePass_append]
      simp only [List.mem_append]
      tauto

/-- C9 witness: concrete instance of the amended theorem on a
single-message log, where the final step and the backfilled step
coincide. -/
theorem C9_restore_idempotent_witness :
    restoreState (restoreState
      { currentStep := "", session_id := "", user_type := "", concern_category := "",
        question := "", askAnotherConfirmation := false, locale := "" }
      [{ text := "hi", isBot := true, step := "send_user_types", session_id := "",
         user_type := "customer", concern_category := "", question := "",
         options := [{ id := "u1", option_value := "U1", next_step := "", label := "" }],
         feedback_options := [], rating_message := "" }])
      [{ text := "hi", isBot := true, step := "send_user_types", session_id := "",
         user_type := "customer", concern_category := "", question := "",
         options := [{ id := "u1", option_value := "U1", next_step := "", label := "" }],
         feedback_options := [], rating_message := "" }] =
    restoreState
      { currentStep := "", session_id := "", user_type := "", concern_category := "",
        question := "", askAnotherConfirmation := false, locale := "" }
      [{ text := "hi", isBot := true, step := "send_user_types", session_id := "",
         user_type := "customer", concern_category := "", question := "",
         options := [{ id := "u1", option_value := "U1", next_step := "", label := "" }],
         feedback_options := [], rating_message := "" }] ∧
    ("u1" ∈ disabledIdsTwice
      { currentStep := "", session_id := "", user_type := "", concern_category := "",
        question := "", askAnotherConfirmation := false, locale := "" }
      [{ text := "hi", isBot := true, step := "send_user_types", session_id := "",
         user_type := "customer", concern_category := "", question := "",
         options := [{ id := "u1", option_value := "U1", next_step := "", label := "" }],
         feedback_options := [], rating_message := "" }] ↔
     "u1" ∈ disabledIdsOnce
      { currentStep := "", session_id := "", user_type := "", concern_category := "",
        question := "", askAnotherConfirmation := false, locale := "" }
      [{ text := "hi", isBot := true, step := "send_user_types", session_id := "",
         user_type := "customer", concern_category := "", question := "",
         options := [{ id := "u1", option_value := "U1", next_step := "", label := "" }],
         feedback_options := [], rating_message := "" }]) := by
  have h := C9_restore_idempotent
    { currentStep := "", session_id := "", user_type := "", concern_category := "",
      question := "", askAnotherConfirmation := false, locale := "" }
    [{ text := "hi", isBot := true, step := "send_user_types", session_id := "",
       user_type := "customer", concern_category := "", question := "",
       options := [{ id := "u1", option_value := "U1", next_step := "", label := "" }],
       feedback_options := [], rating_message := "" }]
  exact ⟨h.1, h.2 (by decide) "u1"⟩

end ChatbotLG
